import Mathlib

/-!
Shallow embedding of the client-side core of `src/src/App.jsx` (a manga
tracking single-page app): the snapshot normalizer, the chapter-advance
policy (`handleUpdateChapter`), the edit-save policy (`handleSaveEdit`),
the add-from-search action (`handleAddItem`), the list sort step of
`sortedAndFilteredItems`, and the search-query validation of
`handleSearch`.

JavaScript field values are modelled by `RawVal` (a field can be absent,
`null`, a number, or a string); numbers are modelled as `Int`, which covers
every value these fields actually hold (chapter counts, ratings, epoch
timestamps).  `Number(x) || 0` is modelled by `numOr0`, `x || d` by `jsOr`.
-/

/-- A JavaScript value as it can appear in a stored record field or a form
field: absent (`undefined`), `null`, an (integral) number, or a string. -/
inductive RawVal where
  | missing
  | null
  | num (n : Int)
  | str (s : String)
deriving DecidableEq, Repr

/-- JavaScript truthiness of a `RawVal`: `undefined`, `null`, `0` and `""`
are falsy, every other modelled value is truthy. -/
def truthy : RawVal → Bool
  | RawVal.missing => false
  | RawVal.null => false
  | RawVal.num n => n != 0
  | RawVal.str s => s != ""

/-- `a || b` on raw values: `a` when truthy, else `b`. -/
def jsOr (a b : RawVal) : RawVal :=
  if truthy a then a else b

/-- The whitespace characters JavaScript string trimming removes, restricted
to those that can occur in the modelled inputs. -/
def isJsWhitespace (c : Char) : Bool :=
  c == ' ' || c == '\t' || c == '\n' || c == '\r' ||
    c == '\u000B' || c == '\u000C' || c == '\u00A0'

/-- JavaScript `String.prototype.trim()`: drop leading and trailing
whitespace. -/
def jsTrim (s : String) : String :=
  ⟨((s.data.dropWhile isJsWhitespace).reverse.dropWhile isJsWhitespace).reverse⟩

/-- A non-empty all-digit character list read as a decimal natural number;
`none` otherwise. -/
def digitsToNat? (l : List Char) : Option Nat :=
  if l = [] then none
  else if l.all Char.isDigit then
    some (l.foldl (fun acc c => acc * 10 + (c.toNat - 48)) 0)
  else none

/-- The decimal-integer fragment of JavaScript string-to-number coercion:
surrounding whitespace is trimmed, the empty string is `0`, an optional
sign followed by digits is the signed value, anything else is `NaN`
(`none`).  Float/hex literals do not occur in the modelled inputs. -/
def parseJsNumber (s : String) : Option Int :=
  match (jsTrim s).data with
  | [] => some 0
  | '-' :: rest => (digitsToNat? rest).map (fun n => -(n : Int))
  | '+' :: rest => (digitsToNat? rest).map (fun n => (n : Int))
  | l => (digitsToNat? l).map (fun n => (n : Int))

/-- JavaScript `Number(x)`: `none` models `NaN`. -/
def toNumber : RawVal → Option Int
  | RawVal.missing => none
  | RawVal.null => some 0
  | RawVal.num n => some n
  | RawVal.str s => parseJsNumber s

/-- `Number(x) || 0`: `NaN` and `0` both become `0`. -/
def numOr0 (v : RawVal) : Int :=
  (toNumber v).getD 0

/-- The `Status` string constants of `App.jsx`. -/
def Status.READING : String := "Reading"

/-- `Status.PLAN_TO_READ`. -/
def Status.PLAN_TO_READ : String := "Plan to Read"

/-- `Status.COMPLETED`. -/
def Status.COMPLETED : String := "Completed"

/-- `Status.DROPPED`. -/
def Status.DROPPED : String := "Dropped"

/-- A raw stored record as delivered by the snapshot subscription (or the
payload written by `handleAddItem`), before normalization: every field may
be absent or of the wrong type.  The same shape models the form values the
edit modal submits to `handleSaveEdit` (the form starts as a spread of the
item, so it always carries every field). -/
structure RawRecord where
  apiId : RawVal
  title : RawVal
  type : RawVal
  status : RawVal
  currentChapter : RawVal
  totalChapters : RawVal
  rating : RawVal
  notes : RawVal
  imageUrl : RawVal
  lastUpdated : RawVal
deriving DecidableEq, Repr

/-- An in-memory tracked item, as held in the `items` state after the
`onSnapshot` normalization: the numeric fields are genuine numbers, the
other fields pass through as raw values. -/
structure TrackedItem where
  apiId : RawVal
  title : RawVal
  type : RawVal
  status : RawVal
  currentChapter : Int
  totalChapters : Int
  rating : Int
  notes : RawVal
  imageUrl : RawVal
  lastUpdated : RawVal
deriving DecidableEq, Repr

/-- The per-document normalization inside the `onSnapshot` callback:
`currentChapter`/`totalChapters`/`rating` are `Number(x) || 0`,
`notes` is `x || ""`, `lastUpdated` is `x || 0`, every other field is
spread through unchanged. -/
def normalizeRecord (r : RawRecord) : TrackedItem :=
  { apiId := r.apiId
    title := r.title
    type := r.type
    status := r.status
    currentChapter := numOr0 r.currentChapter
    totalChapters := numOr0 r.totalChapters
    rating := numOr0 r.rating
    notes := jsOr r.notes (RawVal.str "")
    imageUrl := r.imageUrl
    lastUpdated := jsOr r.lastUpdated (RawVal.num 0) }

/-- The pure core of `handleUpdateChapter` (the +1/−1 controls): the new
chapter is floored at 0, the status is re-derived by the four-branch
cascade, and `lastUpdated` is stamped with the current time. -/
def handleUpdateChapter (item : TrackedItem) (delta : Int) (now : Int) :
    TrackedItem :=
  let newChapter := max 0 (item.currentChapter + delta)
  let total := numOr0 (RawVal.num item.totalChapters)
  let newStatus :=
    if newChapter > 0 ∧ item.status = RawVal.str Status.PLAN_TO_READ then
      RawVal.str Status.READING
    else if total > 0 ∧ newChapter ≥ total then
      RawVal.str Status.COMPLETED
    else if newChapter > 0 ∧ newChapter < total ∧
        item.status = RawVal.str Status.COMPLETED then
      RawVal.str Status.READING
    else if newChapter = 0 ∧ item.status = RawVal.str Status.READING then
      RawVal.str Status.PLAN_TO_READ
    else item.status
  { item with
    currentChapter := newChapter
    status := newStatus
    lastUpdated := RawVal.num now }

/-- The pure core of `handleSaveEdit`: coerce the submitted numbers, derive
the status by the two-branch cascade, merge the form data over the original
item (the form carries every field, so only `imageUrl` still consults the
original, through its `||` fallback chain), and stamp `lastUpdated`. -/
def handleSaveEdit (isEditing : TrackedItem) (updatedData : RawRecord)
    (now : Int) : TrackedItem :=
  let newCurrent := numOr0 updatedData.currentChapter
  let newTotal := numOr0 updatedData.totalChapters
  let newRating := numOr0 updatedData.rating
  let newStatus :=
    if updatedData.status = RawVal.str Status.PLAN_TO_READ ∧ newCurrent > 0 then
      RawVal.str Status.READING
    else if newTotal > 0 ∧ newCurrent ≥ newTotal then
      RawVal.str Status.COMPLETED
    else updatedData.status
  let itemToSave : TrackedItem :=
    { apiId := updatedData.apiId
      title := updatedData.title
      type := updatedData.type
      status := newStatus
      currentChapter := newCurrent
      totalChapters := newTotal
      rating := newRating
      notes := updatedData.notes
      imageUrl := updatedData.imageUrl
      lastUpdated := RawVal.num now }
  { itemToSave with
    imageUrl := jsOr itemToSave.imageUrl (jsOr isEditing.imageUrl (RawVal.str "")) }

/-- One raw search result from the catalog API, reduced to the fields
`handleAddItem` reads (`image_url` stands for the already-chased optional
path `images?.jpg?.image_url`). -/
structure ApiResult where
  mal_id : RawVal
  title : RawVal
  type : RawVal
  chapters : RawVal
  image_url : RawVal
deriving DecidableEq, Repr

/-- The pure core of `handleAddItem`: a strict-equality de-duplication scan
over the in-memory items, then either a no-op (`none`) or the payload of
the single created record. -/
def handleAddItem (items : List TrackedItem) (apiResult : ApiResult)
    (now : Int) : Option RawRecord :=
  if items.any (fun item => item.apiId = apiResult.mal_id) then none
  else some
    { apiId := apiResult.mal_id
      title := apiResult.title
      type := jsOr apiResult.type (RawVal.str "Manga")
      status := RawVal.str Status.PLAN_TO_READ
      currentChapter := RawVal.num 0
      totalChapters := jsOr apiResult.chapters (RawVal.num 0)
      rating := RawVal.num 0
      notes := RawVal.str ""
      imageUrl := jsOr apiResult.image_url (RawVal.str "")
      lastUpdated := RawVal.num now }

/-- The sort field selected in the UI (`sortField` state). -/
inductive SortField where
  | title
  | rating
  | lastUpdated
deriving DecidableEq, Repr

/-- The sort direction selected in the UI (`sortDirection` state). -/
inductive SortDirection where
  | asc
  | desc
deriving DecidableEq, Repr

/-- JavaScript `String.prototype.toLowerCase()`, per-character lowercasing
(the inputs are ASCII, where this matches exactly). -/
def jsToLower (s : String) : String :=
  ⟨s.data.map Char.toLower⟩

/-- The title key of the comparator: `(aVal || '').toLowerCase()`.  In the
modelled inputs a title is a string or absent; a truthy non-string would
throw in JavaScript and is mapped to `""` here, outside the modelled
domain. -/
def titleSortKey (v : RawVal) : String :=
  match jsOr v (RawVal.str "") with
  | RawVal.str s => jsToLower s
  | _ => ""

/-- The shared comparator skeleton of `sortedAndFilteredItems`:
`-1`/`1`/`0` by key comparison, with `desc` swapping the two non-zero
answers. -/
def jsCompare {α : Type} [LinearOrder α] (dir : SortDirection) (aVal bVal : α) :
    Int :=
  if aVal < bVal then (if dir = SortDirection.asc then -1 else 1)
  else if bVal < aVal then (if dir = SortDirection.asc then 1 else -1)
  else 0

/-- The comparator of `sortedAndFilteredItems`: lower-cased title for
`sortField = title`, `Number(x) || 0` for the numeric fields. -/
def itemComparator (field : SortField) (dir : SortDirection)
    (a b : TrackedItem) : Int :=
  match field with
  | SortField.title => jsCompare dir (titleSortKey a.title) (titleSortKey b.title)
  | SortField.rating =>
      jsCompare dir (numOr0 (RawVal.num a.rating)) (numOr0 (RawVal.num b.rating))
  | SortField.lastUpdated =>
      jsCompare dir (numOr0 a.lastUpdated) (numOr0 b.lastUpdated)

/-- The sort step of `sortedAndFilteredItems`: `[...items].sort(cmp)`.
JavaScript `Array.prototype.sort` is a stable sort, embedded as the stable
`List.mergeSort` on the non-strict comparator order. -/
def sortStep (items : List TrackedItem) (field : SortField)
    (dir : SortDirection) : List TrackedItem :=
  items.mergeSort (fun a b => decide (itemComparator field dir a b ≤ 0))

/-- The outcome of submitting the catalog search form. -/
inductive SearchOutcome where
  | validationError
  | fetchRequest (q : String)
deriving DecidableEq, Repr

/-- The pure decision of `handleSearch`: a query whose trimmed length is
below 3 is rejected with an inline validation message and no fetch;
otherwise the fetch is issued with the (untrimmed) query. -/
def handleSearch (query : String) : SearchOutcome :=
  if (jsTrim query).length < 3 then SearchOutcome.validationError
  else SearchOutcome.fetchRequest query

/-- Coercing a genuine number through `Number(x) || 0` is the identity. -/
theorem numOr0_num (n : Int) : numOr0 (RawVal.num n) = n := rfl

/-- The ascending comparator answers at most `0` exactly on `≤` of the keys. -/
theorem jsCompare_nonpos_asc {α : Type} [LinearOrder α] (a b : α) :
    jsCompare SortDirection.asc a b ≤ 0 ↔ a ≤ b := by
  rcases lt_trichotomy a b with h | h | h
  · simp [jsCompare, h, h.le]
  · subst h
    simp [jsCompare]
  · simp [jsCompare, not_lt_of_gt h, h, not_le_of_gt h]

/-- The descending comparator answers at most `0` exactly on `≥` of the keys. -/
theorem jsCompare_nonpos_desc {α : Type} [LinearOrder α] (a b : α) :
    jsCompare SortDirection.desc a b ≤ 0 ↔ b ≤ a := by
  rcases lt_trichotomy a b with h | h | h
  · simp [jsCompare, h, not_lt_of_gt h, not_le_of_gt h]
  · subst h
    simp [jsCompare]
  · simp [jsCompare, not_lt_of_gt h, h, h.le]

/-- Flipping the direction negates the comparator value. -/
theorem jsCompare_desc_eq_neg {α : Type} [LinearOrder α] (a b : α) :
    jsCompare SortDirection.desc a b = - jsCompare SortDirection.asc a b := by
  rcases lt_trichotomy a b with h | h | h
  · simp [jsCompare, h]
  · subst h
    simp [jsCompare]
  · simp [jsCompare, not_lt_of_gt h, h]

/-- The item comparator's non-strict order is transitive (it is key
comparison in every field/direction combination). -/
theorem itemComparator_trans (field : SortField) (dir : SortDirection)
    (a b c : TrackedItem)
    (h1 : itemComparator field dir a b ≤ 0)
    (h2 : itemComparator field dir b c ≤ 0) :
    itemComparator field dir a c ≤ 0 := by
  cases field <;> cases dir <;>
    simp only [itemComparator, jsCompare_nonpos_asc, jsCompare_nonpos_desc]
      at h1 h2 ⊢ <;>
    first
      | exact le_trans h1 h2
      | exact le_trans h2 h1

/-- The item comparator's non-strict order is total. -/
theorem itemComparator_total (field : SortField) (dir : SortDirection)
    (a b : TrackedItem) :
    (decide (itemComparator field dir a b ≤ 0) ||
      decide (itemComparator field dir b a ≤ 0)) = true := by
  rw [Bool.or_eq_true, decide_eq_true_eq, decide_eq_true_eq]
  cases field <;> cases dir <;>
    simp only [itemComparator, jsCompare_nonpos_asc, jsCompare_nonpos_desc] <;>
    exact le_total _ _

/-- The sort step permutes the input collection. -/
theorem sortStep_perm (items : List TrackedItem) (field : SortField)
    (dir : SortDirection) : (sortStep items field dir).Perm items :=
  List.mergeSort_perm items _

/-- The sort step's output is ordered by the comparator. -/
theorem sortStep_pairwise (items : List TrackedItem) (field : SortField)
    (dir : SortDirection) :
    (sortStep items field dir).Pairwise
      (fun a b => itemComparator field dir a b ≤ 0) := by
  have htrans : ∀ a b c : TrackedItem,
      decide (itemComparator field dir a b ≤ 0) = true →
      decide (itemComparator field dir b c ≤ 0) = true →
      decide (itemComparator field dir a c ≤ 0) = true :=
    fun a b c hab hbc => decide_eq_true
      (itemComparator_trans field dir a b c (of_decide_eq_true hab)
        (of_decide_eq_true hbc))
  have htotal : ∀ a b : TrackedItem,
      (decide (itemComparator field dir a b ≤ 0) ||
        decide (itemComparator field dir b a ≤ 0)) = true :=
    itemComparator_total field dir
  unfold sortStep
  exact List.Pairwise.imp (fun hab => of_decide_eq_true hab)
    (List.sorted_mergeSort htrans htotal items)

/-- The sort step is stable: a pair of items the comparator ties keeps its
input order. -/
theorem sortStep_stable (items : List TrackedItem) (field : SortField)
    (dir : SortDirection) (a b : TrackedItem)
    (hsub : List.Sublist [a, b] items)
    (h0 : itemComparator field dir a b = 0) :
    List.Sublist [a, b] (sortStep items field dir) := by
  have htrans : ∀ a b c : TrackedItem,
      decide (itemComparator field dir a b ≤ 0) = true →
      decide (itemComparator field dir b c ≤ 0) = true →
      decide (itemComparator field dir a c ≤ 0) = true :=
    fun a b c hab hbc => decide_eq_true
      (itemComparator_trans field dir a b c (of_decide_eq_true hab)
        (of_decide_eq_true hbc))
  have htotal : ∀ a b : TrackedItem,
      (decide (itemComparator field dir a b ≤ 0) ||
        decide (itemComparator field dir b a ≤ 0)) = true :=
    itemComparator_total field dir
  unfold sortStep
  exact List.pair_sublist_mergeSort htrans htotal
    (decide_eq_true (le_of_eq h0)) hsub

/-- Status re-derivation for the advance action exactly as the
specification words it, first match wins: (1) positive chapter promotes
PlanToRead to Reading; (2) reaching a known total completes; (3) dropping
below a known total un-completes to Reading; (4) reaching 0 demotes
Reading to PlanToRead; (5) otherwise unchanged. -/
def specAdvanceStatus (current : RawVal) (newChapter totalChapters : Int) :
    RawVal :=
  if newChapter > 0 ∧ current = RawVal.str Status.PLAN_TO_READ then
    RawVal.str Status.READING
  else if totalChapters > 0 ∧ newChapter ≥ totalChapters then
    RawVal.str Status.COMPLETED
  else if newChapter > 0 ∧ newChapter < totalChapters ∧
      current = RawVal.str Status.COMPLETED then
    RawVal.str Status.READING
  else if newChapter = 0 ∧ current = RawVal.str Status.READING then
    RawVal.str Status.PLAN_TO_READ
  else current

/-- Status re-derivation for the edit action exactly as the specification
words it, fixed order: a PlanToRead submission with a positive chapter is
overridden to Reading; else a reached known total is overridden to
Completed; else the submitted status is kept as-is. -/
def specEditStatus (submitted : RawVal) (currentChapter totalChapters : Int) :
    RawVal :=
  if submitted = RawVal.str Status.PLAN_TO_READ ∧ currentChapter > 0 then
    RawVal.str Status.READING
  else if totalChapters > 0 ∧ currentChapter ≥ totalChapters then
    RawVal.str Status.COMPLETED
  else submitted

/-- C1: for every item and delta, advance computes
`newChapter = max(0, currentChapter + delta)` and re-derives the status by
exactly the claimed five-rule priority order (first match wins), captured
verbatim by `specAdvanceStatus`. -/
theorem C1_advance_matches_spec (item : TrackedItem) (delta now : Int) :
    (handleUpdateChapter item delta now).currentChapter =
      max 0 (item.currentChapter + delta) ∧
    (handleUpdateChapter item delta now).status =
      specAdvanceStatus item.status (max 0 (item.currentChapter + delta))
        item.totalChapters :=
  ⟨rfl, rfl⟩

/-- C2: applyEdit derives the stored status exactly by the claimed fixed
order, captured verbatim by `specEditStatus`; in particular a submission of
status PlanToRead with currentChapter 5 and totalChapters 0 yields status
Reading. -/
theorem C2_applyEdit_status_matches_spec :
    (∀ (orig : TrackedItem) (form : RawRecord) (now : Int),
        (handleSaveEdit orig form now).status =
          specEditStatus form.status (numOr0 form.currentChapter)
            (numOr0 form.totalChapters)) ∧
    (∀ (orig : TrackedItem) (now : Int),
        (handleSaveEdit orig
            { apiId := RawVal.missing, title := RawVal.str "X",
              type := RawVal.missing,
              status := RawVal.str Status.PLAN_TO_READ,
              currentChapter := RawVal.num 5, totalChapters := RawVal.num 0,
              rating := RawVal.num 0, notes := RawVal.missing,
              imageUrl := RawVal.missing, lastUpdated := RawVal.missing }
            now).status = RawVal.str Status.READING) :=
  ⟨fun _ _ _ => rfl, fun _ _ => rfl⟩

/-- C3: advance never moves a Dropped item to Reading on a positive delta
(rule 1 only fires for PlanToRead), and on the documented example
`advance(+1)` of a Dropped item at chapter 0 yields chapter 1 with status
still Dropped. -/
theorem C3_dropped_not_promoted_by_advance :
    (∀ (item : TrackedItem) (delta now : Int),
        item.status = RawVal.str Status.DROPPED → 0 < delta →
        (handleUpdateChapter item delta now).status ≠
          RawVal.str Status.READING) ∧
    ((handleUpdateChapter
        { apiId := RawVal.missing, title := RawVal.missing,
          type := RawVal.missing, status := RawVal.str Status.DROPPED,
          currentChapter := 0, totalChapters := 0, rating := 0,
          notes := RawVal.missing, imageUrl := RawVal.missing,
          lastUpdated := RawVal.missing } 1 17).currentChapter = 1 ∧
      (handleUpdateChapter
        { apiId := RawVal.missing, title := RawVal.missing,
          type := RawVal.missing, status := RawVal.str Status.DROPPED,
          currentChapter := 0, totalChapters := 0, rating := 0,
          notes := RawVal.missing, imageUrl := RawVal.missing,
          lastUpdated := RawVal.missing } 1 17).status =
        RawVal.str Status.DROPPED) := by
  constructor
  · intro item delta now hs _hd
    simp [handleUpdateChapter, hs, Status.DROPPED, Status.PLAN_TO_READ,
      Status.COMPLETED, Status.READING]
    split_ifs <;> simp
  · exact ⟨by decide, by decide⟩

/-- C3 witness: the general statement applied to a concrete Dropped item
and a concrete positive delta. -/
theorem C3_witness :
    (handleUpdateChapter
      { apiId := RawVal.missing, title := RawVal.missing,
        type := RawVal.missing, status := RawVal.str Status.DROPPED,
        currentChapter := 4, totalChapters := 0, rating := 0,
        notes := RawVal.missing, imageUrl := RawVal.missing,
        lastUpdated := RawVal.missing } 5 3).status ≠
      RawVal.str Status.READING :=
  C3_dropped_not_promoted_by_advance.1 _ 5 3 rfl (by decide)

/-- C4: advance can change a Dropped item's status without an explicit
edit: when the item has a known positive total and the new chapter reaches
it, the completion rule fires regardless of the current status, so the
Dropped item becomes Completed. -/
theorem C4_advance_completes_dropped (item : TrackedItem) (delta now : Int)
    (hs : item.status = RawVal.str Status.DROPPED)
    (htot : 0 < item.totalChapters)
    (hreach : item.totalChapters ≤ max 0 (item.currentChapter + delta)) :
    (handleUpdateChapter item delta now).status =
      RawVal.str Status.COMPLETED := by
  simp [handleUpdateChapter, hs, numOr0_num, htot, hreach, Status.DROPPED,
    Status.PLAN_TO_READ, Status.COMPLETED, Status.READING]

/-- C4 witness: a Dropped item at chapter 9 of 10 advanced by +1 becomes
Completed. -/
theorem C4_witness :
    (handleUpdateChapter
      { apiId := RawVal.missing, title := RawVal.missing,
        type := RawVal.missing, status := RawVal.str Status.DROPPED,
        currentChapter := 9, totalChapters := 10, rating := 0,
        notes := RawVal.missing, imageUrl := RawVal.missing,
        lastUpdated := RawVal.missing } 1 23).status =
      RawVal.str Status.COMPLETED :=
  C4_advance_completes_dropped _ 1 23 rfl (by decide) (by decide)

/-- C5 counterexample: the claim asserts the normalizer yields
`currentChapter ≥ 0` even for negative stored numbers, but
`Number(x) || 0` passes a stored `-5` through unchanged. -/
theorem C5_counterexample :
    ¬ (0 ≤ (normalizeRecord
        { apiId := RawVal.missing, title := RawVal.missing,
          type := RawVal.missing, status := RawVal.missing,
          currentChapter := RawVal.num (-5), totalChapters := RawVal.missing,
          rating := RawVal.missing, notes := RawVal.missing,
          imageUrl := RawVal.missing,
          lastUpdated := RawVal.missing }).currentChapter) := by
  decide

/-- C5 amended: advance always yields `currentChapter ≥ 0` (the floor is
unconditional); the normalizer and applyEdit coerce missing/non-numeric
input to 0 but pass negative numeric input through, so their outputs are
nonnegative exactly when the coerced input is. -/
theorem C5_amended_current_chapter_nonneg :
    (∀ (item : TrackedItem) (delta now : Int),
        0 ≤ (handleUpdateChapter item delta now).currentChapter) ∧
    (∀ r : RawRecord,
        0 ≤ numOr0 r.currentChapter →
        0 ≤ (normalizeRecord r).currentChapter) ∧
    (∀ (orig : TrackedItem) (form : RawRecord) (now : Int),
        0 ≤ numOr0 form.currentChapter →
        0 ≤ (handleSaveEdit orig form now).currentChapter) :=
  ⟨fun item delta _ => le_max_left 0 (item.currentChapter + delta),
   fun _ h => h,
   fun _ _ _ h => h⟩

/-- C5 witness: the amended statement applied to a concrete advance, a
concrete raw record, and a concrete edit form. -/
theorem C5_witness :
    0 ≤ (handleUpdateChapter
      { apiId := RawVal.missing, title := RawVal.missing,
        type := RawVal.missing, status := RawVal.missing,
        currentChapter := 0, totalChapters := 0, rating := 0,
        notes := RawVal.missing, imageUrl := RawVal.missing,
        lastUpdated := RawVal.missing } (-1) 7).currentChapter ∧
    0 ≤ (normalizeRecord
      { apiId := RawVal.missing, title := RawVal.missing,
        type := RawVal.missing, status := RawVal.missing,
        currentChapter := RawVal.num 3, totalChapters := RawVal.missing,
        rating := RawVal.missing, notes := RawVal.missing,
        imageUrl := RawVal.missing,
        lastUpdated := RawVal.missing }).currentChapter ∧
    0 ≤ (handleSaveEdit
      { apiId := RawVal.missing, title := RawVal.missing,
        type := RawVal.missing, status := RawVal.missing,
        currentChapter := 0, totalChapters := 0, rating := 0,
        notes := RawVal.missing, imageUrl := RawVal.missing,
        lastUpdated := RawVal.missing }
      { apiId := RawVal.missing, title := RawVal.missing,
        type := RawVal.missing, status := RawVal.missing,
        currentChapter := RawVal.str "2", totalChapters := RawVal.missing,
        rating := RawVal.missing, notes := RawVal.missing,
        imageUrl := RawVal.missing, lastUpdated := RawVal.missing }
      7).currentChapter :=
  ⟨C5_amended_current_chapter_nonneg.1 _ (-1) 7,
   C5_amended_current_chapter_nonneg.2.1 _ (by decide),
   C5_amended_current_chapter_nonneg.2.2 _ _ 7 (by decide)⟩

/-- C6 counterexample: the claim asserts applyEdit clamps or rejects
submitted ratings above 10, but a submitted rating of 11 is stored
unchanged. -/
theorem C6_counterexample :
    ¬ ((handleSaveEdit
        { apiId := RawVal.missing, title := RawVal.missing,
          type := RawVal.missing, status := RawVal.missing,
          currentChapter := 0, totalChapters := 0, rating := 0,
          notes := RawVal.missing, imageUrl := RawVal.missing,
          lastUpdated := RawVal.missing }
        { apiId := RawVal.missing, title := RawVal.missing,
          type := RawVal.missing, status := RawVal.str Status.READING,
          currentChapter := RawVal.num 1, totalChapters := RawVal.num 0,
          rating := RawVal.num 11, notes := RawVal.missing,
          imageUrl := RawVal.missing, lastUpdated := RawVal.missing }
        0).rating ≤ 10) := by
  decide

/-- C6 amended: creation from a search candidate always stores rating 0;
the normalizer and applyEdit coerce a missing/non-numeric rating to 0 but
apply no range clamp, so the resulting rating lies in [0,10] exactly when
the coerced input rating does. -/
theorem C6_amended_rating_range :
    (∀ (items : List TrackedItem) (cand : ApiResult) (now : Int)
        (rec : RawRecord),
        handleAddItem items cand now = some rec →
        rec.rating = RawVal.num 0 ∧ (normalizeRecord rec).rating = 0) ∧
    (∀ r : RawRecord,
        0 ≤ numOr0 r.rating ∧ numOr0 r.rating ≤ 10 →
        0 ≤ (normalizeRecord r).rating ∧ (normalizeRecord r).rating ≤ 10) ∧
    (∀ (orig : TrackedItem) (form : RawRecord) (now : Int),
        0 ≤ numOr0 form.rating ∧ numOr0 form.rating ≤ 10 →
        0 ≤ (handleSaveEdit orig form now).rating ∧
          (handleSaveEdit orig form now).rating ≤ 10) := by
  refine ⟨?_, fun _ h => h, fun _ _ _ h => h⟩
  intro items cand now rec h
  unfold handleAddItem at h
  split at h
  · exact Option.noConfusion h
  · cases h
    exact ⟨rfl, rfl⟩

/-- C6 witness: the amended statement applied to a concrete creation, a
concrete raw record, and a concrete edit form. -/
theorem C6_witness :
    (handleAddItem []
        { mal_id := RawVal.num 7, title := RawVal.str "X",
          type := RawVal.missing, chapters := RawVal.num 10,
          image_url := RawVal.missing } 5 = some
      { apiId := RawVal.num 7, title := RawVal.str "X",
        type := RawVal.str "Manga",
        status := RawVal.str Status.PLAN_TO_READ,
        currentChapter := RawVal.num 0, totalChapters := RawVal.num 10,
        rating := RawVal.num 0, notes := RawVal.str "",
        imageUrl := RawVal.str "",
        lastUpdated := RawVal.num 5 } ∧
      ({ apiId := RawVal.num 7, title := RawVal.str "X",
         type := RawVal.str "Manga",
         status := RawVal.str Status.PLAN_TO_READ,
         currentChapter := RawVal.num 0, totalChapters := RawVal.num 10,
         rating := RawVal.num 0, notes := RawVal.str "",
         imageUrl := RawVal.str "",
         lastUpdated := RawVal.num 5 } : RawRecord).rating = RawVal.num 0) ∧
    (0 ≤ (normalizeRecord
        { apiId := RawVal.missing, title := RawVal.missing,
          type := RawVal.missing, status := RawVal.missing,
          currentChapter := RawVal.missing, totalChapters := RawVal.missing,
          rating := RawVal.str "nope", notes := RawVal.missing,
          imageUrl := RawVal.missing,
          lastUpdated := RawVal.missing }).rating ∧
      (normalizeRecord
        { apiId := RawVal.missing, title := RawVal.missing,
          type := RawVal.missing, status := RawVal.missing,
          currentChapter := RawVal.missing, totalChapters := RawVal.missing,
          rating := RawVal.str "nope", notes := RawVal.missing,
          imageUrl := RawVal.missing,
          lastUpdated := RawVal.missing }).rating ≤ 10) ∧
    (0 ≤ (handleSaveEdit
        { apiId := RawVal.missing, title := RawVal.missing,
          type := RawVal.missing, status := RawVal.missing,
          currentChapter := 0, totalChapters := 0, rating := 0,
          notes := RawVal.missing, imageUrl := RawVal.missing,
          lastUpdated := RawVal.missing }
        { apiId := RawVal.missing, title := RawVal.missing,
          type := RawVal.missing, status := RawVal.missing,
          currentChapter := RawVal.missing, totalChapters := RawVal.missing,
          rating := RawVal.num 10, notes := RawVal.missing,
          imageUrl := RawVal.missing, lastUpdated := RawVal.missing }
        0).rating ∧
      (handleSaveEdit
        { apiId := RawVal.missing, title := RawVal.missing,
          type := RawVal.missing, status := RawVal.missing,
          currentChapter := 0, totalChapters := 0, rating := 0,
          notes := RawVal.missing, imageUrl := RawVal.missing,
          lastUpdated := RawVal.missing }
        { apiId := RawVal.missing, title := RawVal.missing,
          type := RawVal.missing, status := RawVal.missing,
          currentChapter := RawVal.missing, totalChapters := RawVal.missing,
          rating := RawVal.num 10, notes := RawVal.missing,
          imageUrl := RawVal.missing, lastUpdated := RawVal.missing }
        0).rating ≤ 10) :=
  ⟨⟨by decide,
    (C6_amended_rating_range.1 []
      { mal_id := RawVal.num 7, title := RawVal.str "X",
        type := RawVal.missing, chapters := RawVal.num 10,
        image_url := RawVal.missing } 5 _ (by decide)).1⟩,
   C6_amended_rating_range.2.1 _ ⟨by decide, by decide⟩,
   C6_amended_rating_range.2.2 _ _ 0 ⟨by decide, by decide⟩⟩

/-- C7 counterexample: the claim asserts `lastUpdated` is coerced to 0
whenever the raw field is non-numeric, but the code defaults it with a
truthiness check (`x || 0`), so a truthy non-numeric value such as the
string "yesterday" passes through unchanged. -/
theorem C7_counterexample :
    toNumber (RawVal.str "yesterday") = none ∧
    (normalizeRecord
      { apiId := RawVal.missing, title := RawVal.missing,
        type := RawVal.missing, status := RawVal.missing,
        currentChapter := RawVal.missing, totalChapters := RawVal.missing,
        rating := RawVal.missing, notes := RawVal.missing,
        imageUrl := RawVal.missing,
        lastUpdated := RawVal.str "yesterday" }).lastUpdated ≠
      RawVal.num 0 := by
  decide

/-- C7 amended: the normalizer is total and coerces a missing or
non-numeric `currentChapter`, `totalChapters` and `rating` to 0; a missing
`notes` becomes the empty string; `lastUpdated` is defaulted by truthiness,
so it becomes 0 when the raw field is missing or otherwise falsy but a
truthy non-numeric value passes through unchanged; every other present
field passes through unchanged. -/
theorem C7_amended_normalizer (r : RawRecord) :
    (toNumber r.currentChapter = none →
      (normalizeRecord r).currentChapter = 0) ∧
    (toNumber r.totalChapters = none →
      (normalizeRecord r).totalChapters = 0) ∧
    (toNumber r.rating = none → (normalizeRecord r).rating = 0) ∧
    (r.notes = RawVal.missing →
      (normalizeRecord r).notes = RawVal.str "") ∧
    (truthy r.lastUpdated = false →
      (normalizeRecord r).lastUpdated = RawVal.num 0) ∧
    (truthy r.lastUpdated = true →
      (normalizeRecord r).lastUpdated = r.lastUpdated) ∧
    (normalizeRecord r).title = r.title ∧
    (normalizeRecord r).type = r.type ∧
    (normalizeRecord r).status = r.status ∧
    (normalizeRecord r).imageUrl = r.imageUrl ∧
    (normalizeRecord r).apiId = r.apiId := by
  refine ⟨?_, ?_, ?_, ?_, ?_, ?_, rfl, rfl, rfl, rfl, rfl⟩
  · intro h
    simp [normalizeRecord, numOr0, h]
  · intro h
    simp [normalizeRecord, numOr0, h]
  · intro h
    simp [normalizeRecord, numOr0, h]
  · intro h
    simp [normalizeRecord, jsOr, h, truthy]
  · intro h
    simp [normalizeRecord, jsOr, h]
  · intro h
    simp [normalizeRecord, jsOr, h]

/-- C7 witness: the amended statement applied to a concrete raw record
with a non-numeric chapter, an absent notes field and an absent
`lastUpdated`. -/
theorem C7_witness :
    (normalizeRecord
      { apiId := RawVal.missing, title := RawVal.str "X",
        type := RawVal.missing, status := RawVal.missing,
        currentChapter := RawVal.str "abc", totalChapters := RawVal.missing,
        rating := RawVal.missing, notes := RawVal.missing,
        imageUrl := RawVal.missing,
        lastUpdated := RawVal.missing }).currentChapter = 0 ∧
    (normalizeRecord
      { apiId := RawVal.missing, title := RawVal.str "X",
        type := RawVal.missing, status := RawVal.missing,
        currentChapter := RawVal.str "abc", totalChapters := RawVal.missing,
        rating := RawVal.missing, notes := RawVal.missing,
        imageUrl := RawVal.missing,
        lastUpdated := RawVal.missing }).notes = RawVal.str "" ∧
    (normalizeRecord
      { apiId := RawVal.missing, title := RawVal.str "X",
        type := RawVal.missing, status := RawVal.missing,
        currentChapter := RawVal.str "abc", totalChapters := RawVal.missing,
        rating := RawVal.missing, notes := RawVal.missing,
        imageUrl := RawVal.missing,
        lastUpdated := RawVal.missing }).lastUpdated = RawVal.num 0 :=
  ⟨(C7_amended_normalizer _).1 (by decide),
   (C7_amended_normalizer _).2.2.2.1 (by decide),
   (C7_amended_normalizer _).2.2.2.2.1 (by decide)⟩

/-- C8: the sort step compares titles case-insensitively (a missing/empty
title sorting as the empty string), compares rating and lastUpdated
numerically with missing/non-numeric treated as 0, descending direction
exactly negates the comparator, and the sort is a permutation, ordered by
the comparator, and stable (a tied pair keeps its input order). -/
theorem C8_sort_step_spec :
    (∀ a b : TrackedItem,
        itemComparator SortField.title SortDirection.asc a b ≤ 0 ↔
          titleSortKey a.title ≤ titleSortKey b.title) ∧
    (titleSortKey RawVal.missing = "" ∧
      ∀ s : String, titleSortKey (RawVal.str s) = jsToLower s) ∧
    (∀ a b : TrackedItem,
        itemComparator SortField.rating SortDirection.asc a b ≤ 0 ↔
          a.rating ≤ b.rating) ∧
    (∀ a b : TrackedItem,
        itemComparator SortField.lastUpdated SortDirection.asc a b ≤ 0 ↔
          numOr0 a.lastUpdated ≤ numOr0 b.lastUpdated) ∧
    (∀ v : RawVal, toNumber v = none → numOr0 v = 0) ∧
    (∀ (field : SortField) (a b : TrackedItem),
        itemComparator field SortDirection.desc a b =
          - itemComparator field SortDirection.asc a b) ∧
    (∀ (items : List TrackedItem) (field : SortField) (dir : SortDirection),
        (sortStep items field dir).Perm items) ∧
    (∀ (items : List TrackedItem) (field : SortField) (dir : SortDirection),
        (sortStep items field dir).Pairwise
          (fun a b => itemComparator field dir a b ≤ 0)) ∧
    (∀ (items : List TrackedItem) (field : SortField) (dir : SortDirection)
        (a b : TrackedItem),
        List.Sublist [a, b] items → itemComparator field dir a b = 0 →
        List.Sublist [a, b] (sortStep items field dir)) := by
  refine ⟨fun a b => jsCompare_nonpos_asc _ _,
    ⟨rfl, ?_⟩,
    fun a b => jsCompare_nonpos_asc _ _,
    fun a b => jsCompare_nonpos_asc _ _,
    fun v h => by simp [numOr0, h],
    fun field a b => by cases field <;> exact jsCompare_desc_eq_neg _ _,
    sortStep_perm,
    sortStep_pairwise,
    sortStep_stable⟩
  intro s
  by_cases h : s = ""
  · subst h
    rfl
  · simp [titleSortKey, jsOr, truthy, h]

/-- C8 witness: a concrete non-numeric value sorts as 0, and a concrete
tied pair (equal ratings) keeps its input order through a descending
rating sort. -/
theorem C8_witness :
    numOr0 (RawVal.str "n/a") = 0 ∧
    List.Sublist
      [{ apiId := RawVal.missing, title := RawVal.str "B",
         type := RawVal.missing, status := RawVal.missing,
         currentChapter := 0, totalChapters := 0, rating := 5,
         notes := RawVal.missing, imageUrl := RawVal.missing,
         lastUpdated := RawVal.missing },
       { apiId := RawVal.missing, title := RawVal.str "A",
         type := RawVal.missing, status := RawVal.missing,
         currentChapter := 1, totalChapters := 0, rating := 5,
         notes := RawVal.missing, imageUrl := RawVal.missing,
         lastUpdated := RawVal.missing }]
      (sortStep
        [{ apiId := RawVal.missing, title := RawVal.str "B",
           type := RawVal.missing, status := RawVal.missing,
           currentChapter := 0, totalChapters := 0, rating := 5,
           notes := RawVal.missing, imageUrl := RawVal.missing,
           lastUpdated := RawVal.missing },
         { apiId := RawVal.missing, title := RawVal.str "A",
           type := RawVal.missing, status := RawVal.missing,
           currentChapter := 1, totalChapters := 0, rating := 5,
           notes := RawVal.missing, imageUrl := RawVal.missing,
           lastUpdated := RawVal.missing }]
        SortField.rating SortDirection.desc) :=
  ⟨C8_sort_step_spec.2.2.2.2.1 (RawVal.str "n/a") (by decide),
   C8_sort_step_spec.2.2.2.2.2.2.2.2 _ SortField.rating SortDirection.desc
     _ _ (List.Sublist.refl _) (by decide)⟩

/-- C9: adding a search candidate is a no-op when some tracked item's
external identifier equals the candidate's; otherwise exactly one record is
created with status PlanToRead, currentChapter 0, rating 0, empty notes,
and totalChapters equal to the candidate's chapter count, or 0 when it is
absent. -/
theorem C9_add_item_dedup_and_creation :
    (∀ (items : List TrackedItem) (cand : ApiResult) (now : Int),
        (∃ item ∈ items, item.apiId = cand.mal_id) →
        handleAddItem items cand now = none) ∧
    (∀ (items : List TrackedItem) (cand : ApiResult) (now : Int),
        (∀ item ∈ items, item.apiId ≠ cand.mal_id) →
        ∃ rec : RawRecord,
          handleAddItem items cand now = some rec ∧
          rec.status = RawVal.str Status.PLAN_TO_READ ∧
          rec.currentChapter = RawVal.num 0 ∧
          rec.rating = RawVal.num 0 ∧
          rec.notes = RawVal.str "" ∧
          (normalizeRecord rec).status = RawVal.str Status.PLAN_TO_READ ∧
          (normalizeRecord rec).currentChapter = 0 ∧
          (normalizeRecord rec).rating = 0 ∧
          (normalizeRecord rec).notes = RawVal.str "" ∧
          (∀ n : Int, cand.chapters = RawVal.num n →
            (normalizeRecord rec).totalChapters = n) ∧
          (cand.chapters = RawVal.missing →
            (normalizeRecord rec).totalChapters = 0)) := by
  constructor
  · rintro items cand now ⟨item, hmem, heq⟩
    unfold handleAddItem
    rw [if_pos]
    exact List.any_eq_true.mpr ⟨item, hmem, decide_eq_true heq⟩
  · intro items cand now h
    have hcond :
        items.any (fun item => decide (item.apiId = cand.mal_id)) = false := by
      simp only [List.any_eq_false, decide_eq_true_eq]
      exact h
    refine ⟨{ apiId := cand.mal_id, title := cand.title,
              type := jsOr cand.type (RawVal.str "Manga"),
              status := RawVal.str Status.PLAN_TO_READ,
              currentChapter := RawVal.num 0,
              totalChapters := jsOr cand.chapters (RawVal.num 0),
              rating := RawVal.num 0, notes := RawVal.str "",
              imageUrl := jsOr cand.image_url (RawVal.str ""),
              lastUpdated := RawVal.num now },
      ?_, rfl, rfl, rfl, rfl, rfl, rfl, rfl, rfl, ?_, ?_⟩
    · unfold handleAddItem
      rw [if_neg]
      simp [hcond]
    · intro n hn
      rcases eq_or_ne n 0 with h0 | h0
      · subst h0
        show numOr0 (jsOr cand.chapters (RawVal.num 0)) = 0
        rw [hn]
        rfl
      · show numOr0 (jsOr cand.chapters (RawVal.num 0)) = n
        rw [hn]
        simp [jsOr, truthy, h0, numOr0, toNumber]
    · intro hm
      show numOr0 (jsOr cand.chapters (RawVal.num 0)) = 0
      rw [hm]
      rfl

/-- C9 witness: with a concrete candidate of external id 7 and 10 chapters,
adding it over an item that already has apiId 7 is a no-op, and adding it
over the empty collection creates a record. -/
theorem C9_witness :
    handleAddItem
      [{ apiId := RawVal.num 7, title := RawVal.str "X",
         type := RawVal.missing, status := RawVal.missing,
         currentChapter := 0, totalChapters := 0, rating := 0,
         notes := RawVal.missing, imageUrl := RawVal.missing,
         lastUpdated := RawVal.missing }]
      { mal_id := RawVal.num 7, title := RawVal.str "X",
        type := RawVal.missing, chapters := RawVal.num 10,
        image_url := RawVal.missing } 5 = none ∧
    handleAddItem []
      { mal_id := RawVal.num 7, title := RawVal.str "X",
        type := RawVal.missing, chapters := RawVal.num 10,
        image_url := RawVal.missing } 5 ≠ none := by
  constructor
  · exact C9_add_item_dedup_and_creation.1 _ _ 5
      ⟨{ apiId := RawVal.num 7, title := RawVal.str "X",
         type := RawVal.missing, status := RawVal.missing,
         currentChapter := 0, totalChapters := 0, rating := 0,
         notes := RawVal.missing, imageUrl := RawVal.missing,
         lastUpdated := RawVal.missing }, by simp, rfl⟩
  · obtain ⟨rec, hrec, -⟩ :=
      C9_add_item_dedup_and_creation.2 []
        { mal_id := RawVal.num 7, title := RawVal.str "X",
          type := RawVal.missing, chapters := RawVal.num 10,
          image_url := RawVal.missing } 5 (by simp)
    simp [hrec]

/-- C10 counterexample: the claim says every query of 3 or more characters
issues the search request, but `handleSearch` tests the trimmed length:
the 3-character query "ab " is rejected with a validation error. -/
theorem C10_counterexample :
    3 ≤ "ab ".length ∧ handleSearch "ab " = SearchOutcome.validationError :=
  ⟨by decide, by decide⟩

/-- C10 amended: the local gate is on the trimmed query: a query whose
trimmed length is below 3 is rejected with a user-visible validation error
and no network call; a query whose trimmed length is at least 3 issues the
request (with the untrimmed query). -/
theorem C10_amended_search_gate (q : String) :
    ((jsTrim q).length < 3 →
      handleSearch q = SearchOutcome.validationError) ∧
    (3 ≤ (jsTrim q).length →
      handleSearch q = SearchOutcome.fetchRequest q) := by
  constructor
  · intro h
    simp [handleSearch, h]
  · intro h
    simp [handleSearch, not_lt.mpr h]

/-- C10 witness: the amended statement applied to the too-short query "ab"
and the long-enough padded query " abc ". -/
theorem C10_witness :
    handleSearch "ab" = SearchOutcome.validationError ∧
    handleSearch " abc " = SearchOutcome.fetchRequest " abc " :=
  ⟨(C10_amended_search_gate "ab").1 (by decide),
   (C10_amended_search_gate " abc ").2 (by decide)⟩
